import Mathlib

/-!
Shallow embedding of the OMEVV baseline-profile Ansible module
(`plugins/modules/omevv_baseline_profile.py`) and the parts of
`plugins/module_utils/omevv_utils/omevv_firmware_utils.py` it uses.

Modelling conventions:

* The REST transport (`RestOMEVV`) and the Ansible module runtime
  (`OMEVVAnsibleModule`) are external collaborators, not part of the two
  source files.  Following the spec (§6) the REST client is modelled as a
  record of canned per-endpoint responses (`Backend`), each of which can
  either return a response object (success flag + typed `json_data`) or
  raise a transport exception (`HTTPError` / `URLError`).  Every request is
  appended to a trace so theorems can speak about which requests a run
  issues.
* `module.exit_json` terminates the invocation; it is modelled as an
  exception (`Exc.exitJson`) carrying the exit payload, matching Python's
  `SystemExit`-based behaviour (it is not caught by the module's
  `except` clauses).
* Python dictionaries whose key set is a subset of the six diff keys
  (`name`, `firmwareRepoId`, `firmwareRepoName`, `clusterGroups`,
  `description`, `jobSchedule`) are modelled by `SixMap`, a record with one
  `Option (Option _)` field per key: the outer `Option` is key presence,
  the inner one is JSON `null`.  Python dict equality over these key sets
  coincides with record equality.
* Computations are modelled in the monad
  `M α = List Request → Except Exc α × List Request`: state-passing for
  the request trace plus exceptions, where the trace survives a raised
  exception (needed to state "no mutating request was issued before the
  error").
-/

/-! ## Message constants (omevv_baseline_profile.py lines 169-179 and
omevv_firmware_utils.py lines 33-36) -/

/-! ## Module parameters and runtime flags -/

/-! ## omevv_firmware_utils.py -/

/-! ## omevv_baseline_profile.py -/

/-- A weekly job schedule as built by `create_job_schedule` and as carried
by the drift-job endpoint: seven day flags plus a verbatim time string. -/
structure JobSchedule where
  monday : Bool
  tuesday : Bool
  wednesday : Bool
  thursday : Bool
  friday : Bool
  saturday : Bool
  sunday : Bool
  time : String
deriving DecidableEq, Repr

/-- One entry of a profile's `clusterGroups` list. -/
structure ClusterGroup where
  clusterID : Int
  clusterName : String
  omevv_groupID : Int
deriving DecidableEq, Repr

/-- A Python dict whose keys range over the six diff keys.  Outer `Option`:
key present in the dict; inner `Option`: the value may be JSON null. -/
structure SixMap where
  name : Option (Option String) := none
  firmwareRepoId : Option (Option Int) := none
  firmwareRepoName : Option (Option String) := none
  clusterGroups : Option (Option (List ClusterGroup)) := none
  description : Option (Option String) := none
  jobSchedule : Option (Option JobSchedule) := none
deriving DecidableEq, Repr

/-- The empty dict `\x7b\x7d` over the six diff keys. -/
def SixMap.empty : SixMap := {}

/-- Keep a dict entry only when it is present with a non-null value;
models `\x7bk: v for k, v in d.items() if v is not None\x7d` for one key. -/
def dropNull {α : Type} : Option (Option α) → Option (Option α)
  | some (some v) => some (some v)
  | _ => none

/-- `\x7bk: v for k, v in m.items() if v is not None\x7d` over the six keys. -/
def SixMap.dropNulls (m : SixMap) : SixMap :=
  { name := dropNull m.name
    firmwareRepoId := dropNull m.firmwareRepoId
    firmwareRepoName := dropNull m.firmwareRepoName
    clusterGroups := dropNull m.clusterGroups
    description := dropNull m.description
    jobSchedule := dropNull m.jobSchedule }

/-- A before/after change set as passed to `exit_json(diff=...)`. -/
structure Diff where
  before : SixMap
  after : SixMap
deriving DecidableEq, Repr

/-- `json_data` of `GET .../BaselineProfiles/\x7bid\x7d`: the polled profile
snapshot; only its `status` field is read by the module. -/
structure Snapshot where
  status : String
deriving DecidableEq, Repr

/-- Value of the `baseline_profile_info` field of an exit:
either the empty dict (delete path) or a profile snapshot. -/
inductive Info where
  | emptyDict : Info
  | snap : Snapshot → Info
deriving DecidableEq, Repr

/-- Parsed JSON body of an HTTP error (`json.load(err)`). -/
structure ErrBody where
  errorCode : Option String
  message : Option String
deriving DecidableEq, Repr

/-- Value of the `msg` argument of `exit_json`: usually a string, but the
HTTP-500 handler passes the parsed JSON body, and `message` from an error
body may be `None`. -/
inductive MsgV where
  | s : String → MsgV
  | json : ErrBody → MsgV
  | nullV : MsgV
deriving DecidableEq, Repr

/-- The keyword arguments of a `module.exit_json(...)` call.  Omitted
boolean flags default to false; omitted payload fields to `none`. -/
structure ExitJson where
  msg : MsgV
  changed : Bool := false
  failed : Bool := false
  skipped : Bool := false
  unreachable : Bool := false
  diff : Option Diff := none
  baseline_profile_info : Option Info := none
  error_info : Option ErrBody := none
deriving DecidableEq, Repr

/-- Exceptions that can escape a statement of the module body: the
`SystemExit` raised by `exit_json`, the transport errors raised by the REST
client, and the Python runtime errors the module's code can raise.
`fuelExhausted` is a modelling artefact of bounding the unbounded source
polling loop; no theorem's run reaches it. -/
inductive Exc where
  | exitJson : ExitJson → Exc
  | httpError : Int → Option ErrBody → Exc
  | urlError : String → Exc
  | typeError : String → Exc
  | attributeError : String → Exc
  | keyError : String → Exc
  | fuelExhausted : Exc
deriving DecidableEq, Repr

/-- One REST request issued through the collaborator client, or a
`time.sleep` call (logged so the polling cadence is observable). -/
inductive Request where
  | getBaselineProfiles : String → Request
  | getBaselineProfileById : String → Int → Request
  | getClusters : String → Request
  | postGroupsForClusters : String → List Int → Request
  | getRepositoryProfiles : Request
  | getUpdateJob : String → Option Int → Request
  | postBaselineProfile : String → Request
  | patchBaselineProfile : String → Int → Request
  | deleteBaselineProfile : String → Int → Request
  | sleep : Nat → Request
deriving DecidableEq, Repr

/-- A mutating baseline-profile request: POST, PATCH or DELETE on the
`/Consoles/.../BaselineProfiles` endpoints. -/
def Request.isMutating : Request → Bool
  | .postBaselineProfile _ => true
  | .patchBaselineProfile _ _ => true
  | .deleteBaselineProfile _ _ => true
  | _ => false

/-- A response object of the collaborator REST client: success flag plus
endpoint-specific `json_data` (spec §6). -/
structure Resp (α : Type) where
  success : Bool
  json_data : α
deriving DecidableEq, Repr

/-- A transport-level failure raised by the collaborator REST client:
an HTTP error (status code + parsed body, `none` for an unparseable body)
or a connection-level URL error. -/
inductive TransportErr where
  | http : Int → Option ErrBody → TransportErr
  | url : String → TransportErr
deriving DecidableEq, Repr

/-- Lift a transport failure to the exception it raises in the module. -/
def excOf : TransportErr → Exc
  | .http c b => .httpError c b
  | .url m => .urlError m

/-- `json_data` of `GET .../UpdateJobs/\x7bid\x7d`; the module reads its
`schedule` key (absent or null collapses to `none` via `.get`). -/
structure DriftJob where
  schedule : Option JobSchedule
deriving DecidableEq, Repr

/-- A cluster entry of `GET /Consoles/.../Clusters`. -/
structure Cluster where
  name : String
  entityId : Int
deriving DecidableEq, Repr

/-- A group entry of `POST .../Groups/getGroupsForClusters`. -/
structure GroupEntry where
  groupId : Int
deriving DecidableEq, Repr

/-- A repository profile of `GET /RepositoryProfiles`. -/
structure RepoProfile where
  profileName : String
  id : Int
deriving DecidableEq, Repr

/-- A baseline profile as returned by `GET .../BaselineProfiles`.
The six diff keys use the two-layer `Option` dict encoding; `id` and
`driftJobId` are read with `[...]` / `.get` respectively. -/
structure BProfile where
  id : Int
  driftJobId : Option Int := none
  name : Option (Option String) := none
  firmwareRepoId : Option (Option Int) := none
  firmwareRepoName : Option (Option String) := none
  clusterGroups : Option (Option (List ClusterGroup)) := none
  description : Option (Option String) := none
  jobSchedule : Option (Option JobSchedule) := none
deriving DecidableEq, Repr

/-- Modelled from the spec (§6): the injected REST client collaborator
`RestOMEVV`, as a table of canned per-endpoint behaviours.  Each endpoint
either raises a transport error or returns a response object.  The
baseline-profile-by-id endpoint is additionally a function of how many
times it has been fetched so far, so that a polled job can move through a
status sequence. -/
structure Backend where
  clusters : Except TransportErr (Resp (List Cluster))
  groupsForClusters : List Int → Except TransportErr (Resp (List GroupEntry))
  repositoryProfiles : Except TransportErr (Resp (List RepoProfile))
  baselineProfiles : Except TransportErr (Resp (List BProfile))
  baselineProfileById : Int → Nat → Except TransportErr (Resp Snapshot)
  updateJob : Option Int → Except TransportErr (Resp DriftJob)
  createBaseline : Except TransportErr (Resp Int)
  modifyBaseline : Except TransportErr (Resp Unit)
  deleteBaseline : Except TransportErr (Resp Unit)

/-- The module computation monad: request-trace passing plus exceptions.
The trace survives exceptions (Python's raised exception does not undo the
HTTP requests already sent). -/
def M (α : Type) : Type := List Request → Except Exc α × List Request

def M.pure {α : Type} (a : α) : M α := fun t => (.ok a, t)

def M.bind {α β : Type} (m : M α) (f : α → M β) : M β := fun t =>
  match m t with
  | (.ok a, t') => f a t'
  | (.error e, t') => (.error e, t')

instance : Monad M where
  pure := M.pure
  bind := M.bind

/-- Raise a Python exception / `SystemExit`. -/
def raiseM {α : Type} (e : Exc) : M α := fun t => (.error e, t)

/-- `module.exit_json(...)`: terminates the invocation. -/
def exit_json {α : Type} (e : ExitJson) : M α := raiseM (.exitJson e)

/-- Lift a pure, request-free computation that may raise. -/
def liftE {α : Type} (e : Except Exc α) : M α := fun t => (e, t)

/-- Issue one request: log it and deliver the canned behaviour. -/
def invoke {α : Type} (r : Request) (canned : Except TransportErr (Resp α)) :
    M (Resp α) := fun t =>
  match canned with
  | .error te => (.error (excOf te), t ++ [r])
  | .ok resp => (.ok resp, t ++ [r])

/-- `GET .../BaselineProfiles/\x7bid\x7d`; the canned response is indexed by
the number of such fetches already in the trace, so repeated polling can
observe a status sequence. -/
def invoke_get_baseline_profile_by_id (b : Backend) (profile_id : Int)
    (vcenter_uuid : String) : M (Resp Snapshot) := fun t =>
  let n := t.countP fun r => match r with
    | .getBaselineProfileById _ _ => true
    | _ => false
  match b.baselineProfileById profile_id n with
  | .error te => (.error (excOf te), t ++ [.getBaselineProfileById vcenter_uuid profile_id])
  | .ok resp => (.ok resp, t ++ [.getBaselineProfileById vcenter_uuid profile_id])

/-- `time.sleep(secs)`, logged in the trace. -/
def sleepM (secs : Nat) : M Unit := fun t => (.ok (), t ++ [.sleep secs])

def SUCCESS_CREATION_MSG : String := "Successfully created the baseline profile."

def FAILED_CREATION_MSG : String := "Unable to create the baseline profile."

def SUCCESS_MODIFY_MSG : String := "Successfully modified the baseline profile."

def FAILED_MODIFY_MSG : String := "Unable to modify the baseline profile."

def SUCCESS_DELETION_MSG : String := "Successfully deleted the baseline profile."

def FAILED_DELETION_MSG : String := "Unable to delete the baseline profile."

def CHANGES_FOUND_MSG : String := "Changes found to be applied."

def CHANGES_NOT_FOUND_MSG : String := "No changes found to be applied."

def TIMEOUT_NEGATIVE_OR_ZERO_MSG : String :=
  "The value for the 'job_wait_timeout' parameter cannot be negative or zero."

def NO_REPO_PROFILE_MSG : String := "No repository profiles found."

/-- `INVALID_REPO_PROFILE_MSG.format(repository_profile=...)`. -/
def INVALID_REPO_PROFILE_MSG (repository_profile : String) : String :=
  "Invalid repository profile: " ++ repository_profile ++ ". Please provide a valid profile."

/-- Python's `str(x)` of an optional string (`str(None) = "None"`). -/
def optStr : Option String → String
  | none => "None"
  | some s => s

/-- Message of the `TypeError` raised at omevv_baseline_profile.py line 197:
`validate_repository_profile` is invoked with one argument but its
definition (omevv_firmware_utils.py line 284) takes two. -/
def TYPE_ERROR_VALIDATE_REPO_MSG : String :=
  "validate_repository_profile() missing 1 required positional argument: 'module'"

/-- Message of the `AttributeError` raised at line 317: the class defines
`perform_create_baseline_profile` but `execute` calls
`self.create_baseline_profile`, which no class in the hierarchy defines. -/
def ATTR_ERROR_CREATE_MSG : String :=
  "'CreateBaselineProfile' object has no attribute 'create_baseline_profile'"

/-- Message of the `AttributeError` raised at line 430 (`execute` calls the
undefined `self.modify_baseline_profile`). -/
def ATTR_ERROR_MODIFY_MSG : String :=
  "'ModifyBaselineProfile' object has no attribute 'modify_baseline_profile'"

/-- Message of the `AttributeError` raised at line 481 (`execute` calls the
undefined `self.delete_baseline_profile`). -/
def ATTR_ERROR_DELETE_MSG : String :=
  "'DeleteBaselineProfile' object has no attribute 'delete_baseline_profile'"

/-- The module's parameter dict after Ansible argument parsing.  Every key
of the argument spec is present; unsupplied optional values are `None`
(`none`).  `name` is required, `state` defaults to `"present"`, `job_wait`
to true and `job_wait_timeout` to 1200. -/
structure Params where
  state : String := "present"
  name : String
  cluster : Option (List String) := none
  description : Option String := none
  days : Option (List String) := none
  time : Option String := none
  repository_profile : Option String := none
  job_wait : Bool := true
  job_wait_timeout : Int := 1200
  vcenter_uuid : String
deriving DecidableEq, Repr

/-- The Ansible runtime's dry-run and diff flags (`module.check_mode`,
`module._diff`). -/
structure Flags where
  check_mode : Bool
  diff : Bool
deriving DecidableEq, Repr

/-- Modelled from the spec (§1, §4.4): `OMEVVAnsibleModule` argument
validation, an external collaborator.  It enforces the `required_if`
clauses of `main` (state=present requires repository_profile, cluster,
days and time; state=absent requires name, which the record always has),
the `choices` of `state` and `days`, and fails the invocation before the
`try` block otherwise. -/
def argspecOk (p : Params) : Bool :=
  (p.state == "present" || p.state == "absent") &&
  (if p.state == "present" then
      p.repository_profile.isSome && p.cluster.isSome &&
      p.days.isSome && p.time.isSome
    else true) &&
  (match p.days with
    | none => true
    | some l => l.all fun d =>
        ["sunday", "monday", "tuesday", "wednesday", "thursday", "friday",
          "saturday", "all"].contains d)

/-- Modelled from the spec (§7): `validate_job_wait` from
`module_utils/utils.py` (not under src/) flags an out-of-range timeout —
it returns an error exactly when `job_wait` is set and `job_wait_timeout`
is negative or zero. -/
def validate_job_wait (p : Params) : Bool :=
  p.job_wait && p.job_wait_timeout ≤ 0

/-- HH:MM 24-hour clock check. -/
def timeFormatOk (t : String) : Bool :=
  match t.data with
  | [h1, h2, c, m1, m2] =>
    h1.isDigit && h2.isDigit && c == ':' && m1.isDigit && m2.isDigit &&
    decide (10 * (h1.toNat - 48) + (h2.toNat - 48) < 24) &&
    decide (10 * (m1.toNat - 48) + (m2.toNat - 48) < 60)
  | _ => false

/-- Message used by the modelled `validate_time` failure exit. -/
def VALIDATE_TIME_FAIL_MSG : String := "Invalid time. Enter the value in the HH:MM format."

/-- Modelled from the spec (§1, §7): `validate_time` from
`module_utils/utils.py` (not under src/) validates the HH:MM time-of-day
format and fails the invocation on a malformed value; a `None` time passes
through. -/
def validate_time (time : Option String) : M Unit :=
  match time with
  | none => M.pure ()
  | some t =>
    if timeFormatOk t then M.pure ()
    else exit_json { msg := .s VALIDATE_TIME_FAIL_MSG, failed := true }

/-- `OMEVVFirmwareProfile.search_profile_name` (lines 161-175): first
profile whose `profileName` equals the requested name, else the empty
dict (modelled as `none`). -/
def OMEVVFirmwareProfile.search_profile_name (data : List RepoProfile)
    (profile_name : String) : Option RepoProfile :=
  data.find? fun d => d.profileName == profile_name

/-- `OMEVVFirmwareProfile.get_firmware_repository_profile` (lines 50-66).
The only caller in the baseline-profile module passes a profile name, so
the name-absent branch (which returns the whole list) is modelled as
`none`; on an unsuccessful response `profile_info` stays the empty list,
which is falsy at the caller, also `none` here. -/
def OMEVVFirmwareProfile.get_firmware_repository_profile (b : Backend)
    (profile_name : Option String) : M (Option RepoProfile) := do
  let resp ← invoke .getRepositoryProfiles b.repositoryProfiles
  if resp.success then
    match profile_name with
    | some n => M.pure (OMEVVFirmwareProfile.search_profile_name resp.json_data n)
    | none => M.pure none
  else
    M.pure none

/-- `OMEVVFirmwareProfile.get_all_repository_profiles` (lines 68-77):
returns the raw response of `GET /RepositoryProfiles`. -/
def OMEVVFirmwareProfile.get_all_repository_profiles (b : Backend) :
    M (Resp (List RepoProfile)) :=
  invoke .getRepositoryProfiles b.repositoryProfiles

/-- Result of `OMEVVBaselineProfile.validate_repository_profile` /
`validate_cluster_names`: a dict with an `error` or a `success` key. -/
inductive ValidationResult where
  | ok : ValidationResult
  | error : String → ValidationResult
deriving DecidableEq, Repr

/-- `OMEVVBaselineProfile.validate_repository_profile` (lines 284-296).
Note `if not available_repo_profiles:` tests the truthiness of the
response *object*, which is always truthy in Python, so the
`NO_REPO_PROFILE_MSG` branch is dead and is not modelled.  The name list
is read from `json_data` regardless of the success flag, as in the
source. -/
def OMEVVBaselineProfile.validate_repository_profile (b : Backend)
    (repository_profile : Option String) : M ValidationResult := do
  let available ← OMEVVFirmwareProfile.get_all_repository_profiles b
  let names := available.json_data.map (·.profileName)
  let isMember := match repository_profile with
    | some r => names.contains r
    | none => false
  if isMember then
    M.pure .ok
  else
    M.pure (.error (INVALID_REPO_PROFILE_MSG (optStr repository_profile)))

/-- `OMEVVBaselineProfile.get_cluster_id` (lines 334-351): fetch all
clusters, keep the entity ids of those whose name is in `cluster_names`
(backend listing order); an unsuccessful response yields the empty list. -/
def OMEVVBaselineProfile.get_cluster_id (b : Backend)
    (cluster_names : List String) (vcenter_uuid : String) : M (List Int) := do
  let clusters_resp ← invoke (.getClusters vcenter_uuid) b.clusters
  let clusters := if clusters_resp.success then clusters_resp.json_data else []
  M.pure (clusters.filterMap fun c =>
    if cluster_names.contains c.name then some c.entityId else none)

/-- `OMEVVBaselineProfile.get_group_ids_for_clusters` (lines 353-378):
resolve entity ids as above, then (only when that set is non-empty) issue
one batched POST translating them to group ids. -/
def OMEVVBaselineProfile.get_group_ids_for_clusters (b : Backend)
    (vcenter_uuid : String) (cluster_names : List String) : M (List Int) := do
  let clusters_resp ← invoke (.getClusters vcenter_uuid) b.clusters
  let clusters := if clusters_resp.success then clusters_resp.json_data else []
  let cluster_ids := clusters.filterMap fun c =>
    if cluster_names.contains c.name then some c.entityId else none
  if cluster_ids.isEmpty then
    M.pure []
  else do
    let group_resp ← invoke (.postGroupsForClusters vcenter_uuid cluster_ids)
      (b.groupsForClusters cluster_ids)
    M.pure (if group_resp.success then group_resp.json_data.map (·.groupId) else [])

/-- `OMEVVBaselineProfile.get_repo_id_by_name` (lines 380-388): resolve a
repository-profile name to its id; a non-match yields `None`, not an
error. -/
def OMEVVBaselineProfile.get_repo_id_by_name (b : Backend)
    (repository_profile : Option String) : M (Option Int) := do
  let repo_profile_info ← OMEVVFirmwareProfile.get_firmware_repository_profile b
    repository_profile
  M.pure (repo_profile_info.map (·.id))

/-- `OMEVVBaselineProfile.get_baseline_profiles` (lines 390-407). -/
def OMEVVBaselineProfile.get_baseline_profiles (b : Backend)
    (vcenter_uuid : String) : M (List BProfile) := do
  let response ← invoke (.getBaselineProfiles vcenter_uuid) b.baselineProfiles
  if response.success then M.pure response.json_data else M.pure []

/-- `profile.get('name') == profile_name` search of
`get_baseline_profile_by_name` (lines 431-435). -/
def findByName (profiles : List BProfile) (profile_name : String) :
    Option BProfile :=
  profiles.find? fun p => p.name.join == some profile_name

/-- `OMEVVBaselineProfile.get_baseline_profile_by_name` (lines 418-435):
the empty-dict miss is `none`. -/
def OMEVVBaselineProfile.get_baseline_profile_by_name (b : Backend)
    (profile_name : String) (vcenter_uuid : String) : M (Option BProfile) := do
  let profiles ← OMEVVBaselineProfile.get_baseline_profiles b vcenter_uuid
  M.pure (findByName profiles profile_name)

/-- `OMEVVBaselineProfile.get_baseline_profile_by_id` (lines 409-416). -/
def OMEVVBaselineProfile.get_baseline_profile_by_id (b : Backend)
    (profile_id : Int) (vcenter_uuid : String) : M (Resp Snapshot) :=
  invoke_get_baseline_profile_by_id b profile_id vcenter_uuid

/-- `OMEVVBaselineProfile.create_job_schedule` (lines 437-473).
`if days and time:` is Python truthiness: a `None` or empty day list, or a
`None` or empty time string, yields `None`.  Membership tests are exact
and case-sensitive (`set(days)` membership agrees with list membership). -/
def OMEVVBaselineProfile.create_job_schedule (days : Option (List String))
    (time : Option String) : Option JobSchedule :=
  match days, time with
  | some ds, some t =>
    if ds.isEmpty || t == "" then none
    else if ds.contains "all" then
      some { monday := true, tuesday := true, wednesday := true,
             thursday := true, friday := true, saturday := true,
             sunday := true, time := t }
    else
      some { monday := ds.contains "monday", tuesday := ds.contains "tuesday",
             wednesday := ds.contains "wednesday",
             thursday := ds.contains "thursday", friday := ds.contains "friday",
             saturday := ds.contains "saturday", sunday := ds.contains "sunday",
             time := t }
  | _, _ => none

/-- `OMEVVBaselineProfile.get_current_job_schedule` (lines 475-489):
`GET .../UpdateJobs/\x7bprofile_id\x7d` (the argument passed by the module is
the profile's `driftJobId`, possibly `None`). -/
def OMEVVBaselineProfile.get_current_job_schedule (b : Backend)
    (profile_id : Option Int) (vcenter_uuid : String) : M (Resp DriftJob) :=
  invoke (.getUpdateJob vcenter_uuid profile_id) (b.updateJob profile_id)

/-- `OMEVVBaselineProfile.get_add_remove_group_ids` (lines 491-504).
`existing_profile.get('clusterGroups', [])` yields the stored list, the
empty list when the key is absent, and `None` (over which iteration raises
`TypeError`) when the key holds null.  The source converts the two Python
sets to lists in unspecified order; the sets are returned directly. -/
def OMEVVBaselineProfile.get_add_remove_group_ids (b : Backend)
    (existing_profile : BProfile) (vcenter_uuid : String)
    (cluster_names : List String) : M (Finset Int × Finset Int) := do
  let stored ← match existing_profile.clusterGroups with
    | some (some l) => M.pure l
    | some none => raiseM (.typeError "argument of type 'NoneType' is not iterable")
    | none => M.pure ([] : List ClusterGroup)
  let current_group_ids : Finset Int := (stored.map (·.omevv_groupID)).toFinset
  let resolved ← OMEVVBaselineProfile.get_group_ids_for_clusters b vcenter_uuid
    cluster_names
  let new_group_ids : Finset Int := resolved.toFinset
  M.pure (new_group_ids \ current_group_ids, current_group_ids \ new_group_ids)

/-- `OMEVVBaselineProfile.create_baseline_profile` (lines 506-528): flags a
missing-parameter message (Python falsiness: empty name, `None` or zero
repo id, empty group list) but issues the POST regardless; `json_data` of
the response is the new profile's job/profile reference. -/
def OMEVVBaselineProfile.create_baseline_profile (b : Backend) (name : String)
    (firmware_repo_id : Option Int) (group_ids : List Int)
    (vcenter_uuid : String) : M (Resp Int × Option String) := do
  let err_msg :=
    if name == "" || firmware_repo_id == none || firmware_repo_id == some 0 ||
        group_ids.isEmpty then
      some "Required parameters: name, firmware_repo_id, or group_ids are missing."
    else none
  let resp ← invoke (.postBaselineProfile vcenter_uuid) b.createBaseline
  M.pure (resp, err_msg)

/-- `OMEVVBaselineProfile.modify_baseline_profile` (lines 530-555): the
payload dict always carries its eight keys, hence is never falsy. -/
def OMEVVBaselineProfile.modify_baseline_profile (b : Backend)
    (profile_id : Int) (vcenter_uuid : String) : M (Resp Unit × Option String) := do
  let err_msg :=
    if profile_id == 0 || vcenter_uuid == "" then
      some "Required parameters: profile_id, vcenter_uuid, or payload are missing."
    else none
  let resp ← invoke (.patchBaselineProfile vcenter_uuid profile_id) b.modifyBaseline
  M.pure (resp, err_msg)

/-- `OMEVVBaselineProfile.delete_baseline_profile` (lines 557-564). -/
def OMEVVBaselineProfile.delete_baseline_profile (b : Backend)
    (profile_id : Int) (vcenter_uuid : String) : M (Resp Unit) :=
  invoke (.deleteBaselineProfile vcenter_uuid profile_id) b.deleteBaseline

/-- `BaselineProfile.validate_common_params` (lines 190-205).  After the
job-wait and time validations, line 197 invokes
`self.omevv_baseline_obj.validate_repository_profile(repository_profile)`
with a single argument, while the method's definition
(omevv_firmware_utils.py line 284) requires two positional arguments
`(repository_profile, module)`; Python raises `TypeError` at the call,
before the method body (and hence any repository fetch) runs.  Lines
198-205 are therefore unreachable. -/
def BaselineProfile.validate_common_params (p : Params) : M Unit := do
  if validate_job_wait p then
    exit_json { msg := .s TIMEOUT_NEGATIVE_OR_ZERO_MSG, failed := true }
  validate_time p.time
  raiseM (.typeError TYPE_ERROR_VALIDATE_REPO_MSG)

/-- The payload dict assembled by `CreateBaselineProfile.execute`
(lines 298-308): `description` is added only when not `None` and
`jobSchedule` only when truthy, encoded by the `Option` fields. -/
structure CreatePayload where
  name : String
  firmwareRepoId : Option Int
  groupIds : List Int
  description : Option String := none
  jobSchedule : Option JobSchedule := none
deriving DecidableEq, Repr

/-- `CreateBaselineProfile.diff_mode_check` (lines 233-262).
`self.module.params.get('cluster', [])` returns the params value (the key
is always present); on every reachable call state=present has supplied a
cluster list, so the `None` value is modelled as the empty list. -/
def CreateBaselineProfile.diff_mode_check (b : Backend) (p : Params)
    (payload : CreatePayload) : M Diff := do
  let cluster_names := p.cluster.getD []
  let description := p.description
  let cluster_ids ← OMEVVBaselineProfile.get_cluster_id b cluster_names p.vcenter_uuid
  let group_ids ← OMEVVBaselineProfile.get_group_ids_for_clusters b p.vcenter_uuid
    cluster_names
  let cluster_groups := (cluster_names.zip (cluster_ids.zip group_ids)).map
    fun x => ClusterGroup.mk x.2.1 x.1 x.2.2
  let filtered_payload : SixMap :=
    { name := some (some payload.name)
      firmwareRepoId := some payload.firmwareRepoId
      firmwareRepoName := some p.repository_profile
      clusterGroups := some (some cluster_groups)
      description := some description
      jobSchedule := some payload.jobSchedule }
  M.pure { before := SixMap.empty, after := filtered_payload.dropNulls }

/-- The source's unbounded polling loop
(`while status not in ["SUCCESSFUL", "FAILED"]: sleep(3); refetch`,
lines 276-278 and 379-381), bounded by fuel for totality; the source loop
corresponds to unlimited fuel, and every theorem's backend reaches a
terminal status well within the supplied fuel. -/
def pollStatus (b : Backend) (vcenter_uuid : String) (profile_id : Int) :
    Nat → Resp Snapshot → M (Resp Snapshot)
  | 0, _ => raiseM .fuelExhausted
  | Nat.succ n, profile_resp =>
    if profile_resp.json_data.status == "SUCCESSFUL" ||
        profile_resp.json_data.status == "FAILED" then
      M.pure profile_resp
    else do
      sleepM 3
      let r ← OMEVVBaselineProfile.get_baseline_profile_by_id b profile_id
        vcenter_uuid
      pollStatus b vcenter_uuid profile_id n r

/-- `CreateBaselineProfile.perform_create_baseline_profile` (lines
264-288): POST, poll to a terminal status, recompute the diff, exit. -/
def CreateBaselineProfile.perform_create_baseline_profile (b : Backend)
    (p : Params) (fl : Flags) (payload : CreatePayload) (fuel : Nat) : M Unit := do
  let vcenter_uuid := p.vcenter_uuid
  let (response, _err_msg) ← OMEVVBaselineProfile.create_baseline_profile b
    payload.name payload.firmwareRepoId payload.groupIds vcenter_uuid
  if response.success then do
    let first ← OMEVVBaselineProfile.get_baseline_profile_by_id b
      response.json_data vcenter_uuid
    let profile_resp ← pollStatus b vcenter_uuid response.json_data fuel first
    let diff ← CreateBaselineProfile.diff_mode_check b p payload
    if fl.diff && profile_resp.json_data.status == "SUCCESSFUL" then
      exit_json {
        msg := .s SUCCESS_CREATION_MSG,
        baseline_profile_info := some (.snap profile_resp.json_data),
        diff := some diff, changed := true }
    else if profile_resp.json_data.status == "SUCCESSFUL" then
      exit_json {
        msg := .s SUCCESS_CREATION_MSG,
        baseline_profile_info := some (.snap profile_resp.json_data),
        changed := true }
    else
      exit_json {
        msg := .s FAILED_CREATION_MSG,
        baseline_profile_info := some (.snap profile_resp.json_data),
        failed := true }
  else
    exit_json { msg := .s FAILED_CREATION_MSG, failed := true }

/-- `CreateBaselineProfile.execute` (lines 290-317).  After the check-mode
exits, line 317 calls `self.create_baseline_profile(payload)`: neither
`CreateBaselineProfile` nor its base class defines that attribute (the
method defined at line 264 is `perform_create_baseline_profile`), so
Python raises `AttributeError` there. -/
def CreateBaselineProfile.execute (b : Backend) (p : Params) (fl : Flags) :
    M Unit := do
  BaselineProfile.validate_common_params p
  let firmware_repo_id ← OMEVVBaselineProfile.get_repo_id_by_name b
    p.repository_profile
  let group_ids ← OMEVVBaselineProfile.get_group_ids_for_clusters b
    p.vcenter_uuid (p.cluster.getD [])
  let job_schedule := OMEVVBaselineProfile.create_job_schedule p.days p.time
  let payload : CreatePayload :=
    { name := p.name, firmwareRepoId := firmware_repo_id,
      groupIds := group_ids, description := p.description,
      jobSchedule := job_schedule }
  if fl.check_mode && fl.diff then do
    let diff ← CreateBaselineProfile.diff_mode_check b p payload
    exit_json { msg := .s CHANGES_FOUND_MSG, diff := some diff, changed := true }
  if fl.check_mode then
    exit_json { msg := .s CHANGES_FOUND_MSG, changed := true }
  raiseM (.attributeError ATTR_ERROR_CREATE_MSG)

/-- The incremental payload assembled by `ModifyBaselineProfile.execute`
(lines 409-418).  `params.get("description", fallback)` returns the params
value because the `description` key is always present;
`configurationRepoId` and `driverRepoId` are not argument-spec keys, so
their `.get` defaults of 0 apply. -/
structure ModifyPayload where
  addgroupIds : Finset Int
  removeGroupIds : Finset Int
  jobSchedule : Option JobSchedule
  description : Option String
  configurationRepoId : Int := 0
  firmwareRepoId : Option Int
  driverRepoId : Int := 0
  modifiedBy : String := "Administrator@VSPHERE.LOCAL"

/-- `ModifyBaselineProfile.diff_mode_check` (lines 326-369): project the
existing profile onto the six diff keys, substitute the live-polled drift
schedule for the stored one, compare with the desired payload over the
same keys (Python dict equality), and emit either the explicit no-op diff
or the null-filtered before/after pair. -/
def ModifyBaselineProfile.diff_mode_check (b : Backend) (p : Params)
    (existing_profile : BProfile) (payload : ModifyPayload) : M Diff := do
  let cluster_names := p.cluster.getD []
  let description := p.description
  let cluster_ids ← OMEVVBaselineProfile.get_cluster_id b cluster_names p.vcenter_uuid
  let group_ids ← OMEVVBaselineProfile.get_group_ids_for_clusters b p.vcenter_uuid
    cluster_names
  let cluster_groups := (cluster_names.zip (cluster_ids.zip group_ids)).map
    fun x => ClusterGroup.mk x.2.1 x.1 x.2.2
  let old_job_schedule_resp ← OMEVVBaselineProfile.get_current_job_schedule b
    existing_profile.driftJobId p.vcenter_uuid
  let old_job_schedule := old_job_schedule_resp.json_data.schedule
  let new_job_schedule := payload.jobSchedule
  let modified_payload : SixMap :=
    { name := some (some p.name)
      firmwareRepoId := some payload.firmwareRepoId
      firmwareRepoName := some p.repository_profile
      clusterGroups := some (some cluster_groups)
      description := some description
      jobSchedule := some new_job_schedule }
  let filtered_existing_profile : SixMap :=
    { name := existing_profile.name
      firmwareRepoId := existing_profile.firmwareRepoId
      firmwareRepoName := existing_profile.firmwareRepoName
      clusterGroups := existing_profile.clusterGroups
      description := existing_profile.description
      jobSchedule := some old_job_schedule }
  if filtered_existing_profile == modified_payload then
    M.pure { before := SixMap.empty, after := SixMap.empty }
  else
    M.pure { before := filtered_existing_profile.dropNulls,
             after := modified_payload.dropNulls }

/-- `ModifyBaselineProfile.perform_modify_baseline_profile` (lines
371-390): PATCH, poll to a terminal status, exit with the diff computed
before the call. -/
def ModifyBaselineProfile.perform_modify_baseline_profile (b : Backend)
    (p : Params) (fl : Flags) (existing_profile : BProfile)
    (diff_before_modify : Diff) (fuel : Nat) : M Unit := do
  let diff := diff_before_modify
  let profile_id := existing_profile.id
  let vcenter_uuid := p.vcenter_uuid
  let (response, _err_msg) ← OMEVVBaselineProfile.modify_baseline_profile b
    profile_id vcenter_uuid
  if response.success then do
    let first ← OMEVVBaselineProfile.get_baseline_profile_by_id b profile_id
      vcenter_uuid
    let profile_resp ← pollStatus b vcenter_uuid profile_id fuel first
    if fl.diff && profile_resp.json_data.status == "SUCCESSFUL" then
      exit_json {
        msg := .s SUCCESS_MODIFY_MSG,
        baseline_profile_info := some (.snap profile_resp.json_data),
        diff := some diff, changed := true }
    else if profile_resp.json_data.status == "SUCCESSFUL" then
      exit_json {
        msg := .s SUCCESS_MODIFY_MSG,
        baseline_profile_info := some (.snap profile_resp.json_data),
        changed := true }
    else
      exit_json {
        msg := .s FAILED_MODIFY_MSG,
        baseline_profile_info := some (.snap profile_resp.json_data),
        failed := true }
  else
    exit_json { msg := .s FAILED_MODIFY_MSG, failed := true }

/-- `ModifyBaselineProfile.execute` (lines 392-430).  Line 430 calls
`self.modify_baseline_profile(new_payload, diff)`: no class in the
hierarchy defines that attribute (line 371 defines
`perform_modify_baseline_profile`), so Python raises `AttributeError`
there. -/
def ModifyBaselineProfile.execute (b : Backend) (p : Params) (fl : Flags)
    (existing_profile : BProfile) : M Unit := do
  BaselineProfile.validate_common_params p
  let (add_group_ids, remove_group_ids) ←
    OMEVVBaselineProfile.get_add_remove_group_ids b existing_profile
      p.vcenter_uuid (p.cluster.getD [])
  let job_schedule := OMEVVBaselineProfile.create_job_schedule p.days p.time
  let repository_name := p.repository_profile
  let firmware_repo_id ← OMEVVBaselineProfile.get_repo_id_by_name b
    repository_name
  let new_payload : ModifyPayload :=
    { addgroupIds := add_group_ids, removeGroupIds := remove_group_ids,
      jobSchedule := job_schedule, description := p.description,
      firmwareRepoId := firmware_repo_id }
  let diff ← ModifyBaselineProfile.diff_mode_check b p existing_profile
    new_payload
  if diff.before == SixMap.empty && diff.after == SixMap.empty then
    exit_json { msg := .s CHANGES_NOT_FOUND_MSG, changed := false }
  if fl.check_mode && fl.diff then
    exit_json { msg := .s CHANGES_FOUND_MSG, diff := some diff, changed := true }
  if fl.check_mode then
    exit_json { msg := .s CHANGES_FOUND_MSG, changed := true }
  raiseM (.attributeError ATTR_ERROR_MODIFY_MSG)

/-- `DeleteBaselineProfile.diff_mode_check` (lines 439-452): indexes the
five projected keys with `[...]` (a `KeyError` when a key is absent) and
returns the before/after pair only in diff mode (`none` is the initial
empty dict returned otherwise). -/
def DeleteBaselineProfile.diff_mode_check (fl : Flags) (payload : BProfile) :
    Except Exc (Option Diff) := do
  let nameV ← match payload.name with
    | some v => Except.ok v
    | none => Except.error (Exc.keyError "name")
  let descriptionV ← match payload.description with
    | some v => Except.ok v
    | none => Except.error (Exc.keyError "description")
  let firmwareRepoIdV ← match payload.firmwareRepoId with
    | some v => Except.ok v
    | none => Except.error (Exc.keyError "firmwareRepoId")
  let firmwareRepoNameV ← match payload.firmwareRepoName with
    | some v => Except.ok v
    | none => Except.error (Exc.keyError "firmwareRepoName")
  let clusterGroupsV ← match payload.clusterGroups with
    | some v => Except.ok v
    | none => Except.error (Exc.keyError "clusterGroups")
  let diff_dict : SixMap :=
    { name := some nameV, description := some descriptionV,
      firmwareRepoId := some firmwareRepoIdV,
      firmwareRepoName := some firmwareRepoNameV,
      clusterGroups := some clusterGroupsV }
  if fl.diff then
    Except.ok (some { before := diff_dict, after := SixMap.empty })
  else
    Except.ok none

/-- `DeleteBaselineProfile.perform_delete_baseline_profile` (lines
454-464): compute the diff, DELETE, exit on the result. -/
def DeleteBaselineProfile.perform_delete_baseline_profile (b : Backend)
    (p : Params) (fl : Flags) (profile_resp : BProfile) : M Unit := do
  let diff ← liftE (DeleteBaselineProfile.diff_mode_check fl profile_resp)
  let vcenter_uuid := p.vcenter_uuid
  let resp ← OMEVVBaselineProfile.delete_baseline_profile b profile_resp.id
    vcenter_uuid
  if resp.success then
    if fl.diff then
      exit_json {
        msg := .s SUCCESS_DELETION_MSG,
        baseline_profile_info := some .emptyDict, diff := diff, changed := true }
    else
      exit_json {
        msg := .s SUCCESS_DELETION_MSG,
        baseline_profile_info := some .emptyDict, changed := true }
  else
    exit_json { msg := .s FAILED_DELETION_MSG, failed := true }

/-- `DeleteBaselineProfile.execute` (lines 466-483).  The source's flat
sequence of `if` statements (each exit terminates) is rendered as a match
on the lookup result with the same case outcomes.  In the
profile-exists, non-check-mode case, line 481 calls
`self.delete_baseline_profile(profile_exists)`: no class in the hierarchy
defines that attribute (line 454 defines
`perform_delete_baseline_profile`), so Python raises `AttributeError`
before any DELETE request or diff computation. -/
def DeleteBaselineProfile.execute (b : Backend) (p : Params) (fl : Flags)
    (profile_name : String) : M Unit := do
  let vcenter_uuid := p.vcenter_uuid
  let profile_exists ← OMEVVBaselineProfile.get_baseline_profile_by_name b
    profile_name vcenter_uuid
  match profile_exists with
  | some prof =>
    if fl.check_mode && fl.diff then do
      let diff ← liftE (DeleteBaselineProfile.diff_mode_check fl prof)
      exit_json { msg := .s CHANGES_FOUND_MSG, diff := diff, changed := true }
    else if !fl.check_mode then
      raiseM (.attributeError ATTR_ERROR_DELETE_MSG)
    else
      exit_json { msg := .s CHANGES_FOUND_MSG, changed := true }
  | none =>
    if fl.check_mode then
      exit_json { msg := .s CHANGES_NOT_FOUND_MSG, changed := false }
    else if fl.diff then
      exit_json {
        msg := .s CHANGES_NOT_FOUND_MSG,
        diff := some { before := SixMap.empty, after := SixMap.empty },
        changed := false }
    else
      exit_json { msg := .s CHANGES_NOT_FOUND_MSG, changed := false }

/-- The body of `main`'s `try` block (lines 511-527): look up the profile
by name for state=present and dispatch to the operation class.  The
`state` choices make the fall-through case unreachable. -/
def mainTry (b : Backend) (p : Params) (fl : Flags) : M Unit := do
  let profile_name := p.name
  let vcenter_uuid := p.vcenter_uuid
  if p.state == "present" then do
    let existing_profile ← OMEVVBaselineProfile.get_baseline_profile_by_name b
      profile_name vcenter_uuid
    match existing_profile with
    | some prof => ModifyBaselineProfile.execute b p fl prof
    | none => CreateBaselineProfile.execute b p fl
  else if p.state == "absent" then
    DeleteBaselineProfile.execute b p fl profile_name
  else
    M.pure ()

/-- Final result of a module invocation: a terminal `exit_json`, a crash
by an exception no handler catches (a traceback in Python), or `main`
returning without exiting (unreachable in practice). -/
inductive Outcome where
  | exited : ExitJson → Outcome
  | crashed : String → Outcome
  | finished : Outcome
deriving DecidableEq, Repr

/-- Does the second list occur as a leading segment of the first? -/
def charsLeadWith : List Char → List Char → Bool
  | _, [] => true
  | [], _ :: _ => false
  | a :: as, b :: bs => a == b && charsLeadWith as bs

/-- Does the second list occur as a contiguous segment of the first? -/
def charsContainSub : List Char → List Char → Bool
  | [], sub => sub.isEmpty
  | a :: as, sub => charsLeadWith (a :: as) sub || charsContainSub as sub

/-- Substring test (`needle in haystack` on Python strings). -/
def containsSubstr (haystack needle : String) : Bool :=
  charsContainSub haystack.data needle.data

/-- `msg=message` where `message` may be `None`. -/
def msgOfOpt : Option String → MsgV
  | none => .nullV
  | some s => .s s

/-- The `except HTTPError` handler of `main` (lines 529-539).  A `None`
body models an unparseable error payload: `json.load(err)` raises inside
the handler, which nothing catches (exceptions raised in an `except`
suite are not routed to the later clauses of the same `try`), so the
process crashes; likewise the membership test `'18001' in code` raises
`TypeError` when `errorCode` is absent from the body. -/
def handleHTTPError (code : Int) (body : Option ErrBody) (check_mode : Bool) :
    Outcome :=
  if code == 500 then
    match body with
    | none => .crashed "json.load(err) raised inside the HTTPError handler"
    | some errBody => .exited { msg := .json errBody, failed := true }
  else
    match body with
    | none => .crashed "json.load(err) raised inside the HTTPError handler"
    | some errBody =>
      match errBody.errorCode with
      | none => .crashed "TypeError: argument of type 'NoneType' is not iterable"
      | some c =>
        if containsSubstr c "18001" && check_mode then
          .exited { msg := .s CHANGES_NOT_FOUND_MSG }
        else if containsSubstr c "500" then
          .exited { msg := msgOfOpt errBody.message, skipped := true }
        else
          .exited {
            msg := msgOfOpt errBody.message,
            error_info := some errBody, failed := true }

/-- `main` (lines 486-544): argument-spec validation (modelled from the
spec, see `argspecOk`), the `try` body, and the exception handlers.
`URLError` exits `unreachable=true`; the broad final clause (which
includes `TypeError`, `AttributeError` and `KeyError`) exits `failed=true`
with the stringified exception. -/
def runModule (b : Backend) (p : Params) (fl : Flags) :
    Outcome × List Request :=
  if !argspecOk p then
    (.exited { msg := .s "missing or invalid required arguments", failed := true }, [])
  else
    match mainTry b p fl [] with
    | (.ok _, t) => (.finished, t)
    | (.error (.exitJson e), t) => (.exited e, t)
    | (.error (.httpError code body), t) => (handleHTTPError code body fl.check_mode, t)
    | (.error (.urlError m), t) => (.exited { msg := .s m, unreachable := true }, t)
    | (.error (.typeError m), t) => (.exited { msg := .s m, failed := true }, t)
    | (.error (.attributeError m), t) => (.exited { msg := .s m, failed := true }, t)
    | (.error (.keyError m), t) => (.exited { msg := .s m, failed := true }, t)
    | (.error .fuelExhausted, t) => (.crashed "modelling fuel exhausted", t)

/-- The exception with which `BaselineProfile.validate_common_params`
always terminates: a validation exit, or the `TypeError` from the
one-argument `validate_repository_profile` call. -/
def validateExc (p : Params) : Exc :=
  if validate_job_wait p then
    .exitJson { msg := .s TIMEOUT_NEGATIVE_OR_ZERO_MSG, failed := true }
  else
    match p.time with
    | none => .typeError TYPE_ERROR_VALIDATE_REPO_MSG
    | some t =>
      if timeFormatOk t then .typeError TYPE_ERROR_VALIDATE_REPO_MSG
      else .exitJson { msg := .s VALIDATE_TIME_FAIL_MSG, failed := true }

/-- The exception (always an exit or an `AttributeError`) with which
`DeleteBaselineProfile.execute` terminates, as a function of the lookup
result and the runtime flags. -/
def deleteExc (fl : Flags) : Option BProfile → Exc
  | some prof =>
    if fl.check_mode && fl.diff then
      match DeleteBaselineProfile.diff_mode_check fl prof with
      | .ok d => .exitJson { msg := .s CHANGES_FOUND_MSG, diff := d, changed := true }
      | .error e => e
    else if !fl.check_mode then .attributeError ATTR_ERROR_DELETE_MSG
    else .exitJson { msg := .s CHANGES_FOUND_MSG, changed := true }
  | none =>
    if fl.check_mode then
      .exitJson { msg := .s CHANGES_NOT_FOUND_MSG, changed := false }
    else if fl.diff then
      .exitJson {
        msg := .s CHANGES_NOT_FOUND_MSG,
        diff := some { before := SixMap.empty, after := SixMap.empty },
        changed := false }
    else
      .exitJson { msg := .s CHANGES_NOT_FOUND_MSG, changed := false }

/-- How `main`'s exception handlers turn an escaping exception into the
final outcome. -/
def outcomeOfExc (e : Exc) (check_mode : Bool) : Outcome :=
  match e with
  | .exitJson ej => .exited ej
  | .httpError c bd => handleHTTPError c bd check_mode
  | .urlError m => .exited { msg := .s m, unreachable := true }
  | .typeError m => .exited { msg := .s m, failed := true }
  | .attributeError m => .exited { msg := .s m, failed := true }
  | .keyError m => .exited { msg := .s m, failed := true }
  | .fuelExhausted => .crashed "modelling fuel exhausted"

def pPres : Params :=
  { name := "bp1", cluster := some ["c1"], days := some ["monday"],
    time := some "08:00", repository_profile := some "repo1",
    vcenter_uuid := "u1" }

def statusSeqC : Nat → String
  | 0 => "PENDING"
  | 1 => "PENDING"
  | _ => "SUCCESSFUL"

def bPollC : Backend :=
  { clusters := .ok ⟨true, [⟨"c1", 10⟩]⟩
    groupsForClusters := fun _ => .ok ⟨true, [⟨101⟩]⟩
    repositoryProfiles := .ok ⟨true, [⟨"repo1", 5⟩]⟩
    baselineProfiles := .ok ⟨true, []⟩
    baselineProfileById := fun _ n => .ok ⟨true, ⟨statusSeqC n⟩⟩
    updateJob := fun _ => .ok ⟨true, ⟨none⟩⟩
    createBaseline := .ok ⟨true, 42⟩
    modifyBaseline := .ok ⟨true, ()⟩
    deleteBaseline := .ok ⟨true, ()⟩ }

def payloadC : CreatePayload :=
  { name := "bp1", firmwareRepoId := some 5, groupIds := [101],
    description := none,
    jobSchedule := OMEVVBaselineProfile.create_job_schedule (some ["monday"]) (some "08:00") }

def statusSeqM : Nat → String
  | 0 => "PENDING"
  | _ => "FAILED"

def bPollM : Backend :=
  { bPollC with baselineProfileById := fun _ n => .ok ⟨true, ⟨statusSeqM n⟩⟩ }

def profM : BProfile := { id := 7, driftJobId := some 3 }

deriving instance DecidableEq for Except

def profC7a : BProfile :=
  { id := 7,
    clusterGroups := some (some [⟨10, "c1", 1⟩, ⟨11, "c2", 2⟩, ⟨12, "c3", 3⟩]) }

def bC7a : Backend :=
  { clusters := .ok ⟨true, [⟨"c2", 11⟩, ⟨"c3", 12⟩, ⟨"c4", 13⟩]⟩
    groupsForClusters := fun _ => .ok ⟨true, [⟨2⟩, ⟨3⟩, ⟨4⟩]⟩
    repositoryProfiles := .ok ⟨true, []⟩
    baselineProfiles := .ok ⟨true, []⟩
    baselineProfileById := fun _ _ => .ok ⟨true, ⟨"SUCCESSFUL"⟩⟩
    updateJob := fun _ => .ok ⟨true, ⟨none⟩⟩
    createBaseline := .ok ⟨true, 42⟩
    modifyBaseline := .ok ⟨true, ()⟩
    deleteBaseline := .ok ⟨true, ()⟩ }

def bC7b : Backend :=
  { bC7a with
    clusters := .ok ⟨true, [⟨"c1", 10⟩, ⟨"c2", 11⟩, ⟨"c3", 12⟩]⟩
    groupsForClusters := fun _ => .ok ⟨true, [⟨1⟩, ⟨2⟩, ⟨3⟩]⟩ }

def bC8err : Backend :=
  { bC7a with clusters := .error (.url "unreachable host") }

def bC8empty : Backend :=
  { bC7a with clusters := .ok ⟨true, []⟩ }

def bC8gerr : Backend :=
  { bC7a with
    clusters := .ok ⟨true, [⟨"c1", 10⟩]⟩
    groupsForClusters := fun _ => .error (.http 503 none) }

def bC9 : Backend :=
  { bC7a with
    repositoryProfiles := .ok ⟨true, [⟨"repo1", 5⟩]⟩
    baselineProfiles := .ok ⟨true, []⟩ }

def pC9 : Params :=
  { pPres with repository_profile := some "missing" }

def schedMon : JobSchedule :=
  { monday := true, tuesday := false, wednesday := false, thursday := false,
    friday := false, saturday := false, sunday := false, time := "08:00" }

def profMod : BProfile :=
  { id := 7, driftJobId := some 3, name := some (some "bp1"),
    firmwareRepoId := some (some 5), firmwareRepoName := some (some "repo1"),
    clusterGroups := some (some [⟨10, "c1", 101⟩]), description := some none }

def bMod : Backend :=
  { clusters := .ok ⟨true, [⟨"c1", 10⟩]⟩
    groupsForClusters := fun _ => .ok ⟨true, [⟨101⟩]⟩
    repositoryProfiles := .ok ⟨true, [⟨"repo1", 5⟩]⟩
    baselineProfiles := .ok ⟨true, [profMod]⟩
    baselineProfileById := fun _ _ => .ok ⟨true, ⟨"SUCCESSFUL"⟩⟩
    updateJob := fun _ => .ok ⟨true, ⟨some schedMon⟩⟩
    createBaseline := .ok ⟨true, 42⟩
    modifyBaseline := .ok ⟨true, ()⟩
    deleteBaseline := .ok ⟨true, ()⟩ }

def payloadMod : ModifyPayload :=
  { addgroupIds := ∅, removeGroupIds := ∅, jobSchedule := some schedMon,
    description := none, firmwareRepoId := some 5 }

def cgDel : ClusterGroup := ⟨10, "c1", 101⟩

def profDel : BProfile :=
  { id := 7, driftJobId := some 3, name := some (some "bp1"),
    firmwareRepoId := some (some 5), firmwareRepoName := some (some "repo1"),
    clusterGroups := some (some [cgDel]), description := some (some "d") }

def bDel : Backend :=
  { bMod with baselineProfiles := .ok ⟨true, [profDel]⟩ }

def pDel : Params :=
  { name := "bp1", state := "absent", vcenter_uuid := "u1" }

def pCx : Params := { pPres with job_wait_timeout := 0 }

def dDelBefore : SixMap :=
  { name := some (some "bp1"), description := some (some "d"),
    firmwareRepoId := some (some 5), firmwareRepoName := some (some "repo1"),
    clusterGroups := some (some [cgDel]) }

def dDel : Diff := { before := dDelBefore, after := SixMap.empty }

/-- A DELETE on the BaselineProfiles endpoint. -/
def Request.isDeleteCall : Request → Bool
  | .deleteBaselineProfile _ _ => true
  | _ => false

def bC10 : Backend :=
  { bC9 with baselineProfiles := .error (.http 400 (some ⟨some "500", some "Internal error occurred"⟩)) }

theorem M.bind_app {α β : Type} (m : M α) (f : α → M β) (t : List Request) :
    (m >>= f) t = match m t with
      | (.ok a, t') => f a t'
      | (.error e, t') => (.error e, t') := rfl

theorem M.pure_app {α : Type} (a : α) (t : List Request) :
    (Pure.pure a : M α) t = (.ok a, t) := rfl

theorem validate_common_params_eq (p : Params) (t : List Request) :
    BaselineProfile.validate_common_params p t = (.error (validateExc p), t) := by
  unfold BaselineProfile.validate_common_params validateExc validate_time
  by_cases h : validate_job_wait p <;>
    simp [h, M.bind_app, M.pure_app, exit_json, raiseM, M.pure] <;>
    rcases p.time with _ | tv <;>
    simp [M.bind_app, M.pure_app, exit_json, raiseM, M.pure] <;>
    by_cases h2 : timeFormatOk tv <;>
    simp [h2, M.bind_app, M.pure_app, exit_json, raiseM, M.pure]

theorem create_execute_eq (b : Backend) (p : Params) (fl : Flags)
    (t : List Request) :
    CreateBaselineProfile.execute b p fl t = (.error (validateExc p), t) := by
  unfold CreateBaselineProfile.execute
  simp [M.bind_app, validate_common_params_eq]

theorem modify_execute_eq (b : Backend) (p : Params) (fl : Flags)
    (prof : BProfile) (t : List Request) :
    ModifyBaselineProfile.execute b p fl prof t = (.error (validateExc p), t) := by
  unfold ModifyBaselineProfile.execute
  simp [M.bind_app, validate_common_params_eq]

theorem get_baseline_profile_by_name_eq (b : Backend) (n u : String)
    (t : List Request) :
    OMEVVBaselineProfile.get_baseline_profile_by_name b n u t =
      (match b.baselineProfiles with
        | .error te => (.error (excOf te), t ++ [.getBaselineProfiles u])
        | .ok r =>
          (.ok (findByName (if r.success then r.json_data else []) n),
            t ++ [.getBaselineProfiles u])) := by
  unfold OMEVVBaselineProfile.get_baseline_profile_by_name
    OMEVVBaselineProfile.get_baseline_profiles invoke
  rcases b.baselineProfiles with te | r
  · simp [M.bind_app, M.pure_app, M.pure]
  · rcases hr : r.success <;> simp [M.bind_app, M.pure_app, M.pure, hr]

theorem delete_execute_eq (b : Backend) (p : Params) (fl : Flags) (n : String)
    (t : List Request) :
    DeleteBaselineProfile.execute b p fl n t =
      (match b.baselineProfiles with
        | .error te => (.error (excOf te), t ++ [.getBaselineProfiles p.vcenter_uuid])
        | .ok r =>
          (.error (deleteExc fl (findByName (if r.success then r.json_data else []) n)),
            t ++ [.getBaselineProfiles p.vcenter_uuid])) := by
  unfold DeleteBaselineProfile.execute deleteExc
  simp only [M.bind_app, get_baseline_profile_by_name_eq]
  rcases b.baselineProfiles with te | r
  · rfl
  · rcases hf : findByName (if r.success then r.json_data else []) n with _ | prof
    · rcases hc : fl.check_mode <;> rcases hd : fl.diff <;>
        simp [hf, hc, hd, M.bind_app, M.pure_app, exit_json, raiseM]
    · rcases hc : fl.check_mode <;> rcases hd : fl.diff <;>
        simp [hf, hc, hd, M.bind_app, M.pure_app, exit_json, raiseM, liftE] <;>
        rcases DeleteBaselineProfile.diff_mode_check fl prof with e | d <;> rfl

theorem mainTry_eq (b : Backend) (p : Params) (fl : Flags) (t : List Request) :
    mainTry b p fl t =
      (if p.state == "present" then
        match b.baselineProfiles with
        | .error te => (.error (excOf te), t ++ [.getBaselineProfiles p.vcenter_uuid])
        | .ok _ => (.error (validateExc p), t ++ [.getBaselineProfiles p.vcenter_uuid])
      else if p.state == "absent" then
        match b.baselineProfiles with
        | .error te => (.error (excOf te), t ++ [.getBaselineProfiles p.vcenter_uuid])
        | .ok r =>
          (.error (deleteExc fl (findByName (if r.success then r.json_data else []) p.name)),
            t ++ [.getBaselineProfiles p.vcenter_uuid])
      else (.ok (), t)) := by
  unfold mainTry
  rcases hs : p.state == "present"
  · rcases ha : p.state == "absent" <;>
      simp [hs, ha, delete_execute_eq, M.pure_app, M.pure]
  · simp only [hs, if_true, M.bind_app, get_baseline_profile_by_name_eq]
    rcases b.baselineProfiles with te | r
    · rfl
    · rcases hf : findByName (if r.success then r.json_data else []) p.name with _ | prof <;>
        simp [hf, create_execute_eq, modify_execute_eq]

/-- Closed-form description of a full module invocation: the argument-spec
gate, then one profile-list fetch, then either the `TypeError` from the
broken validation call (state=present) or the delete dispatch
(state=absent), routed through the exception handlers. -/
theorem runModule_eq (b : Backend) (p : Params) (fl : Flags) :
    runModule b p fl =
      (if !argspecOk p then
        (.exited { msg := .s "missing or invalid required arguments", failed := true }, [])
      else if p.state == "present" then
        match b.baselineProfiles with
        | .error te =>
          (outcomeOfExc (excOf te) fl.check_mode, [.getBaselineProfiles p.vcenter_uuid])
        | .ok _ =>
          (outcomeOfExc (validateExc p) fl.check_mode, [.getBaselineProfiles p.vcenter_uuid])
      else if p.state == "absent" then
        match b.baselineProfiles with
        | .error te =>
          (outcomeOfExc (excOf te) fl.check_mode, [.getBaselineProfiles p.vcenter_uuid])
        | .ok r =>
          (outcomeOfExc
            (deleteExc fl (findByName (if r.success then r.json_data else []) p.name))
            fl.check_mode, [.getBaselineProfiles p.vcenter_uuid])
      else (.finished, [])) := by
  unfold runModule
  rcases ha : argspecOk p
  · simp [ha]
  · simp only [ha, Bool.not_true, Bool.false_eq_true, if_false]
    rw [mainTry_eq]
    rcases hs : p.state == "present"
    · simp only [hs, Bool.false_eq_true, if_false]
      rcases hab : p.state == "absent"
      · simp [hab]
      · simp only [hab, if_true]
        rcases b.baselineProfiles with te | r
        · rcases te with ⟨c, bd⟩ | m <;> rfl
        · rcases hx : deleteExc fl (findByName (if r.success then r.json_data else []) p.name) <;>
            simp [hx, outcomeOfExc]
    · simp only [hs, if_true]
      rcases b.baselineProfiles with te | r
      · rcases te with ⟨c, bd⟩ | m <;> rfl
      · rcases hx : validateExc p <;> simp [hx, outcomeOfExc]

/-- **C6** For every days/time input to the schedule builder
(`create_job_schedule`): if `days` is empty or absent, or `time` is
absent, the result is absent; if the token "all" is a member of `days`,
all seven day flags are true; otherwise each of the seven flags is true
iff the corresponding canonical day name is a member of `days` under
exact case-sensitive comparison; and the time value is stored verbatim. -/
theorem claim_C6_schedule_builder (days : Option (List String))
    (time : Option String) :
    ((days = none ∨ days = some [] ∨ time = none) →
      OMEVVBaselineProfile.create_job_schedule days time = none) ∧
    (∀ ds tm s, days = some ds → time = some tm →
      OMEVVBaselineProfile.create_job_schedule days time = some s →
      ((ds.contains "all" = true →
        s.monday = true ∧ s.tuesday = true ∧ s.wednesday = true ∧
        s.thursday = true ∧ s.friday = true ∧ s.saturday = true ∧
        s.sunday = true) ∧
      (ds.contains "all" = false →
        s.monday = ds.contains "monday" ∧ s.tuesday = ds.contains "tuesday" ∧
        s.wednesday = ds.contains "wednesday" ∧
        s.thursday = ds.contains "thursday" ∧ s.friday = ds.contains "friday" ∧
        s.saturday = ds.contains "saturday" ∧ s.sunday = ds.contains "sunday") ∧
      s.time = tm)) := by
  constructor
  · rintro (rfl | rfl | rfl)
    · rfl
    · cases time with
      | none => rfl
      | some tm => simp [OMEVVBaselineProfile.create_job_schedule]
    · cases days <;> rfl
  · rintro ds tm s rfl rfl hs
    simp only [OMEVVBaselineProfile.create_job_schedule] at hs
    by_cases he : ds.isEmpty || tm == ""
    · simp [he] at hs
    · simp only [he, if_false, Bool.false_eq_true] at hs
      by_cases hall : ds.contains "all"
      · simp only [hall, if_true, Option.some.injEq] at hs
        subst hs
        exact ⟨fun _ => ⟨rfl, rfl, rfl, rfl, rfl, rfl, rfl⟩,
          fun hc => absurd (hall.symm.trans hc) (by decide), rfl⟩
      · simp only [hall, Bool.false_eq_true, if_false, Option.some.injEq] at hs
        subst hs
        refine ⟨fun hc => ?_, fun _ => ⟨rfl, rfl, rfl, rfl, rfl, rfl, rfl⟩, rfl⟩
        rw [hc] at hall
        exact absurd rfl hall

/-- Witness for C6 at `days = [monday, friday]`, `time = 20:00`. -/
theorem claim_C6_schedule_builder_witness :
    (OMEVVBaselineProfile.create_job_schedule (some ["monday", "friday"])
        (some "20:00") =
      some { monday := true, tuesday := false, wednesday := false,
             thursday := false, friday := true, saturday := false,
             sunday := false, time := "20:00" }) ∧
    OMEVVBaselineProfile.create_job_schedule (some ["all"]) (some "08:00") =
      some { monday := true, tuesday := true, wednesday := true,
             thursday := true, friday := true, saturday := true,
             sunday := true, time := "08:00" } ∧
    OMEVVBaselineProfile.create_job_schedule (some []) (some "08:00") = none := by
  refine ⟨by decide, by decide, (claim_C6_schedule_builder (some []) (some "08:00")).1
    (Or.inr (Or.inl rfl))⟩

/-- **C7** `get_add_remove_group_ids` returns `toAdd = D − E` and
`toRemove = E − D`, where `E` is the existing profile's attached group-id
set and `D` the freshly resolved group-id set of the desired cluster
names; for `E = \x7b1,2,3\x7d` and `D = \x7b2,3,4\x7d` it returns `toAdd = \x7b4\x7d`
and `toRemove = \x7b1\x7d`, and when `E = D` both returned sets are empty. -/
theorem claim_C7_group_diff :
    (∀ (b : Backend) (existing : BProfile) (uuid : String)
      (names : List String) (t t2 : List Request) (l : List Int)
      (stored : List ClusterGroup),
      existing.clusterGroups = some (some stored) →
      OMEVVBaselineProfile.get_group_ids_for_clusters b uuid names t = (.ok l, t2) →
      OMEVVBaselineProfile.get_add_remove_group_ids b existing uuid names t =
        (.ok (l.toFinset \ (stored.map (·.omevv_groupID)).toFinset,
          (stored.map (·.omevv_groupID)).toFinset \ l.toFinset), t2)) ∧
    OMEVVBaselineProfile.get_add_remove_group_ids bC7a profC7a "u1"
        ["c2", "c3", "c4"] [] =
      (.ok (({4} : Finset Int), ({1} : Finset Int)),
        [.getClusters "u1", .postGroupsForClusters "u1" [11, 12, 13]]) ∧
    OMEVVBaselineProfile.get_add_remove_group_ids bC7b profC7a "u1"
        ["c1", "c2", "c3"] [] =
      (.ok ((∅ : Finset Int), (∅ : Finset Int)),
        [.getClusters "u1", .postGroupsForClusters "u1" [10, 11, 12]]) := by
  refine ⟨?_, by decide, by decide⟩
  intro b existing uuid names t t2 l stored hstored hres
  unfold OMEVVBaselineProfile.get_add_remove_group_ids
  simp [hstored, M.bind_app, M.pure_app, M.pure, hres]

/-- Witness for C7's general part at a concrete backend and profile. -/
theorem claim_C7_group_diff_witness :
    profC7a.clusterGroups =
      some (some [⟨10, "c1", 1⟩, ⟨11, "c2", 2⟩, ⟨12, "c3", 3⟩]) ∧
    OMEVVBaselineProfile.get_group_ids_for_clusters bC7a "u1"
        ["c2", "c3", "c4"] [] =
      (.ok [2, 3, 4], [.getClusters "u1", .postGroupsForClusters "u1" [11, 12, 13]]) ∧
    OMEVVBaselineProfile.get_add_remove_group_ids bC7a profC7a "u1"
        ["c2", "c3", "c4"] [] =
      (.ok (([2, 3, 4] : List Int).toFinset \
          (([⟨10, "c1", 1⟩, ⟨11, "c2", 2⟩, ⟨12, "c3", 3⟩] : List ClusterGroup).map
            (·.omevv_groupID)).toFinset,
        (([⟨10, "c1", 1⟩, ⟨11, "c2", 2⟩, ⟨12, "c3", 3⟩] : List ClusterGroup).map
            (·.omevv_groupID)).toFinset \ ([2, 3, 4] : List Int).toFinset),
        [.getClusters "u1", .postGroupsForClusters "u1" [11, 12, 13]]) :=
  ⟨rfl, by decide,
    claim_C7_group_diff.1 bC7a profC7a "u1" ["c2", "c3", "c4"] [] _ _ _
      rfl (by decide)⟩

/-- **C8** During cluster-id lookup and cluster-to-group-id resolution,
any fetch failure raised by the REST client collaborator propagates to the
caller as a transport error and is never swallowed, whereas a fetch that
succeeds but returns no items yields an empty result set rather than an
error (and then no group lookup is issued at all). -/
theorem claim_C8_resolver_errors :
    (∀ (b : Backend) (names : List String) (uuid : String) (t : List Request)
      (e : TransportErr), b.clusters = .error e →
      OMEVVBaselineProfile.get_cluster_id b names uuid t =
        (.error (excOf e), t ++ [.getClusters uuid]) ∧
      OMEVVBaselineProfile.get_group_ids_for_clusters b uuid names t =
        (.error (excOf e), t ++ [.getClusters uuid])) ∧
    (∀ (b : Backend) (names : List String) (uuid : String) (t : List Request)
      (r : Resp (List Cluster)) (e : TransportErr) (cids : List Int),
      b.clusters = .ok r →
      ((if r.success then r.json_data else []).filterMap fun c =>
        if names.contains c.name then some c.entityId else none) = cids →
      cids ≠ [] →
      b.groupsForClusters cids = .error e →
      OMEVVBaselineProfile.get_group_ids_for_clusters b uuid names t =
        (.error (excOf e),
          t ++ [.getClusters uuid, .postGroupsForClusters uuid cids])) ∧
    (∀ (b : Backend) (names : List String) (uuid : String) (t : List Request)
      (r : Resp (List Cluster)), b.clusters = .ok r → r.success = true →
      r.json_data = [] →
      OMEVVBaselineProfile.get_cluster_id b names uuid t =
        (.ok [], t ++ [.getClusters uuid]) ∧
      OMEVVBaselineProfile.get_group_ids_for_clusters b uuid names t =
        (.ok [], t ++ [.getClusters uuid])) := by
  refine ⟨?_, ?_, ?_⟩
  · intro b names uuid t e he
    constructor <;>
      [unfold OMEVVBaselineProfile.get_cluster_id;
       unfold OMEVVBaselineProfile.get_group_ids_for_clusters] <;>
      simp [invoke, he, M.bind_app]
  · intro b names uuid t r e cids hr hcids hne hgerr
    unfold OMEVVBaselineProfile.get_group_ids_for_clusters
    have hemp : cids.isEmpty = false := by
      cases cids with
      | nil => exact absurd rfl hne
      | cons a l => rfl
    simp only [invoke, hr, M.bind_app, M.pure_app, hcids, hemp,
      Bool.false_eq_true, if_false, hgerr, List.append_assoc]
    simp
  · intro b names uuid t r hr hs hj
    constructor <;>
      [unfold OMEVVBaselineProfile.get_cluster_id;
       unfold OMEVVBaselineProfile.get_group_ids_for_clusters] <;>
      simp [invoke, hr, hs, hj, M.bind_app, M.pure_app, M.pure,
        List.filterMap]

/-- Witness for C8 at concrete backends: a failing cluster fetch, a
failing group fetch, and an empty cluster listing. -/
theorem claim_C8_resolver_errors_witness :
    bC8err.clusters = .error (.url "unreachable host") ∧
    OMEVVBaselineProfile.get_cluster_id bC8err ["c1"] "u1" [] =
      (.error (.urlError "unreachable host"), [.getClusters "u1"]) ∧
    OMEVVBaselineProfile.get_group_ids_for_clusters bC8gerr "u1" ["c1"] [] =
      (.error (.httpError 503 none),
        [.getClusters "u1", .postGroupsForClusters "u1" [10]]) ∧
    OMEVVBaselineProfile.get_group_ids_for_clusters bC8empty "u1" ["c1"] [] =
      (.ok [], [.getClusters "u1"]) :=
  ⟨rfl,
    (claim_C8_resolver_errors.1 bC8err ["c1"] "u1" [] (.url "unreachable host") rfl).1,
    claim_C8_resolver_errors.2.1 bC8gerr ["c1"] "u1" [] ⟨true, [⟨"c1", 10⟩]⟩
      (.http 503 none) [10] rfl (by decide) (by decide) rfl,
    (claim_C8_resolver_errors.2.2 bC8empty ["c1"] "u1" [] ⟨true, []⟩ rfl rfl rfl).2⟩

/-- **C9** `get_repo_id_by_name` fetches all repository profiles and
matches by exact name: a non-matching name yields `None` (not an error)
and a matching name yields the profile's id, and the (dead, two-argument)
`validate_repository_profile` computes the domain validation message for
the absent name — but on a real run the orchestrator never surfaces it:
the one-argument call at line 197 raises `TypeError`, which `main`'s
generic handler reports as the failure message instead of the domain
message (hence the code_bug status of this claim). -/
theorem claim_C9_repo_resolution :
    OMEVVBaselineProfile.get_repo_id_by_name bC9 (some "missing") [] =
      (.ok none, [.getRepositoryProfiles]) ∧
    OMEVVBaselineProfile.get_repo_id_by_name bC9 (some "repo1") [] =
      (.ok (some 5), [.getRepositoryProfiles]) ∧
    OMEVVBaselineProfile.validate_repository_profile bC9 (some "missing") [] =
      (.ok (.error (INVALID_REPO_PROFILE_MSG "missing")), [.getRepositoryProfiles]) ∧
    (runModule bC9 pC9 ⟨false, false⟩).1 =
      .exited { msg := .s TYPE_ERROR_VALIDATE_REPO_MSG, failed := true } ∧
    MsgV.s TYPE_ERROR_VALIDATE_REPO_MSG ≠
      MsgV.s (INVALID_REPO_PROFILE_MSG "missing") := by
  exact ⟨by decide, by decide, by decide, by decide, by decide⟩

/-- **C5** After a successful create or modify submission, the reconciler
refetches the profile status with a fixed `sleep 3` between fetches until
it observes SUCCESSFUL or FAILED: for the status sequence
[PENDING, PENDING, SUCCESSFUL] the create reconciler exits changed=true
with the success message only after the third fetch, and for
[PENDING, FAILED] the modify reconciler exits failed=true carrying the
failed snapshot. -/
theorem claim_C5_polling_convergence :
    CreateBaselineProfile.perform_create_baseline_profile bPollC pPres
        ⟨false, false⟩ payloadC 10 [] =
      (.error (.exitJson {
          msg := .s SUCCESS_CREATION_MSG,
          baseline_profile_info := some (.snap ⟨"SUCCESSFUL"⟩),
          changed := true }),
        [.postBaselineProfile "u1",
          .getBaselineProfileById "u1" 42, .sleep 3,
          .getBaselineProfileById "u1" 42, .sleep 3,
          .getBaselineProfileById "u1" 42,
          .getClusters "u1", .getClusters "u1",
          .postGroupsForClusters "u1" [10]]) ∧
    ModifyBaselineProfile.perform_modify_baseline_profile bPollM pPres
        ⟨false, false⟩ profM ⟨SixMap.empty, SixMap.empty⟩ 10 [] =
      (.error (.exitJson {
          msg := .s FAILED_MODIFY_MSG,
          baseline_profile_info := some (.snap ⟨"FAILED"⟩),
          failed := true }),
        [.patchBaselineProfile "u1" 7,
          .getBaselineProfileById "u1" 7, .sleep 3,
          .getBaselineProfileById "u1" 7]) := by
  exact ⟨by decide, by decide⟩

/-- **C1 (amended)** No invocation ever issues a mutating baseline-profile
request (POST/PATCH/DELETE on the BaselineProfiles endpoints); every
state=present run whose profile lookup succeeds and whose job-wait and
time parameters pass validation raises the `TypeError` from the
one-argument `validate_repository_profile` call inside
`validate_common_params`, surfaced by `main`'s outer handler as a generic
failure; and a state=absent run on an existing profile outside check mode
raises `AttributeError` (undefined `self.delete_baseline_profile`),
likewise surfaced as a generic failure with no backend mutation. -/
theorem claim_C1_never_mutates (b : Backend) (p : Params) (fl : Flags) :
    (((runModule b p fl).2).all fun r => !r.isMutating) = true ∧
    (p.state = "present" → argspecOk p = true →
      ∀ r, b.baselineProfiles = Except.ok r →
        validate_job_wait p = false →
        (∀ tv, p.time = some tv → timeFormatOk tv = true) →
        (runModule b p fl).1 =
          .exited { msg := .s TYPE_ERROR_VALIDATE_REPO_MSG, failed := true }) ∧
    (p.state = "absent" → argspecOk p = true → fl.check_mode = false →
      ∀ r prof, b.baselineProfiles = Except.ok r →
        findByName (if r.success then r.json_data else []) p.name = some prof →
        (runModule b p fl).1 =
          .exited { msg := .s ATTR_ERROR_DELETE_MSG, failed := true }) := by
  refine ⟨?_, ?_, ?_⟩
  · rw [runModule_eq]
    rcases ha : argspecOk p
    · simp
    · simp only [ha, Bool.not_true, Bool.false_eq_true, if_false]
      rcases hs : p.state == "present"
      · simp only [hs, Bool.false_eq_true, if_false]
        rcases hab : p.state == "absent"
        · simp [hab]
        · simp only [hab, if_true]
          rcases b.baselineProfiles with te | r <;>
            simp [Request.isMutating]
      · simp only [hs, if_true]
        rcases b.baselineProfiles with te | r <;>
          simp [Request.isMutating]
  · intro hs ha r hb hjw htime
    have hv : validateExc p = .typeError TYPE_ERROR_VALIDATE_REPO_MSG := by
      unfold validateExc
      rcases ht : p.time with _ | tv
      · simp [hjw]
      · simp [hjw, htime tv ht]
    rw [runModule_eq]
    simp [hs, ha, hb, hv, outcomeOfExc]
  · intro hs ha hc r prof hb hfind
    rw [runModule_eq]
    have hd : deleteExc fl (findByName (if r.success then r.json_data else [])
        p.name) = .attributeError ATTR_ERROR_DELETE_MSG := by
      rw [hfind]
      unfold deleteExc
      simp [hc]
    simp [hs, ha, hb, hd, outcomeOfExc]

/-- Witness for C1 at concrete inputs: a present run surfacing the
`TypeError` and an absent run on an existing profile surfacing the
`AttributeError`, both without mutating requests. -/
theorem claim_C1_never_mutates_witness :
    (((runModule bC9 pPres ⟨false, false⟩).2).all fun r => !r.isMutating) = true ∧
    (runModule bC9 pPres ⟨false, false⟩).1 =
      .exited { msg := .s TYPE_ERROR_VALIDATE_REPO_MSG, failed := true } ∧
    (runModule bDel pDel ⟨false, false⟩).1 =
      .exited { msg := .s ATTR_ERROR_DELETE_MSG, failed := true } :=
  ⟨(claim_C1_never_mutates bC9 pPres ⟨false, false⟩).1,
    (claim_C1_never_mutates bC9 pPres ⟨false, false⟩).2.1 rfl (by decide)
      ⟨true, []⟩ rfl (by decide) (by intro tv htv; cases htv; decide),
    (claim_C1_never_mutates bDel pDel ⟨false, false⟩).2.2 rfl (by decide) rfl
      ⟨true, [profDel]⟩ profDel rfl (by decide)⟩

/-- **C1 counterexample** A state=present run with `job_wait_timeout = 0`
exits with the timeout validation message, not the `TypeError` — so it is
not the case that *every* state=present run raises `TypeError` inside
`validate_common_params`. -/
theorem claim_C1_counterexample :
    (runModule bC9 pCx ⟨false, false⟩).1 =
      .exited { msg := .s TIMEOUT_NEGATIVE_OR_ZERO_MSG, failed := true } ∧
    ¬(runModule bC9 pCx ⟨false, false⟩).1 =
      .exited { msg := .s TYPE_ERROR_VALIDATE_REPO_MSG, failed := true } :=
  ⟨by decide, by decide⟩

/-- **C2 (code_bug evidence)** A dry-run delete on an existing profile
reports a before/after diff with changed=true, while the real
(non-dry-run) run with identical inputs and backend state raises
`AttributeError` before computing any diff or issuing any DELETE, exiting
failed=true with no diff; and a dry-run create/modify run raises
`TypeError` inside `validate_common_params` before reaching its check-mode
exit, so no diff is reported there either.  Dry-run indeed never mutates,
but no real run computes the diff the claim requires the dry-run diff to
match. -/
theorem claim_C2_dry_run_divergence :
    (runModule bDel pDel ⟨true, true⟩).1 =
      .exited { msg := .s CHANGES_FOUND_MSG, changed := true, diff := some dDel } ∧
    (((runModule bDel pDel ⟨true, true⟩).2).all fun r => !r.isMutating) = true ∧
    (runModule bDel pDel ⟨false, true⟩).1 =
      .exited { msg := .s ATTR_ERROR_DELETE_MSG, failed := true } ∧
    (((runModule bDel pDel ⟨false, true⟩).2).all fun r => !r.isMutating) = true ∧
    (runModule bC9 pPres ⟨true, true⟩).1 =
      .exited { msg := .s TYPE_ERROR_VALIDATE_REPO_MSG, failed := true } :=
  ⟨by decide, by decide, by decide, by decide, by decide⟩

/-- **C3 (code_bug evidence)** On a backend state where the existing
profile projected onto the six diff keys (with the live-polled schedule
substituted) equals the desired payload, `diff_mode_check` does return the
explicit no-op diff — but the orchestrator (`execute`) never reaches it:
the run exits failed=true with the `TypeError` message from
`validate_common_params` instead of the no-changes message (still with no
mutating request). -/
theorem claim_C3_noop_shortcircuit :
    ModifyBaselineProfile.diff_mode_check bMod pPres profMod payloadMod [] =
      (.ok { before := SixMap.empty, after := SixMap.empty },
        [.getClusters "u1", .getClusters "u1", .postGroupsForClusters "u1" [10],
          .getUpdateJob "u1" (some 3)]) ∧
    (runModule bMod pPres ⟨false, false⟩).1 =
      .exited { msg := .s TYPE_ERROR_VALIDATE_REPO_MSG, failed := true } ∧
    ¬(runModule bMod pPres ⟨false, false⟩).1 =
      .exited { msg := .s CHANGES_NOT_FOUND_MSG, changed := false } ∧
    (((runModule bMod pPres ⟨false, false⟩).2).all fun r => !r.isMutating) = true :=
  ⟨by decide, by decide, by decide, by decide⟩

/-- **C4** When state=absent and no baseline profile with the given name
exists in the vCenter scope, the module exits with the no-changes message
and changed=false (not failed), issuing zero DELETE calls, for every
combination of the check-mode and diff flags. -/
theorem claim_C4_delete_absent (b : Backend) (p : Params) (fl : Flags)
    (r : Resp (List BProfile)) :
    p.state = "absent" → argspecOk p = true →
    b.baselineProfiles = Except.ok r →
    findByName (if r.success then r.json_data else []) p.name = none →
    ∃ e, (runModule b p fl).1 = .exited e ∧ e.msg = .s CHANGES_NOT_FOUND_MSG ∧
      e.changed = false ∧ e.failed = false ∧
      (((runModule b p fl).2).all fun req => !req.isDeleteCall) = true := by
  intro hs ha hb hfind
  have hsp : (p.state == "present") = false := by simp [hs]
  have hsa : (p.state == "absent") = true := by simp [hs]
  rw [runModule_eq]
  simp only [ha, Bool.not_true, Bool.false_eq_true, if_false, hsp, hsa,
    if_true, hb, hfind]
  rcases hc : fl.check_mode <;> rcases hd : fl.diff <;>
    simp only [deleteExc, outcomeOfExc, hc, hd, Bool.false_eq_true,
      Bool.and_self, Bool.and_false, Bool.and_true, Bool.false_and,
      Bool.true_and, Bool.not_false, Bool.not_true, if_false, if_true,
      ite_true, ite_false] <;>
    exact ⟨_, rfl, rfl, rfl, rfl, by simp [Request.isDeleteCall]⟩

/-- Witness for C4 on a backend whose profile list has no matching name,
in check mode. -/
theorem claim_C4_delete_absent_witness :
    pDel.state = "absent" ∧ argspecOk pDel = true ∧
    bC9.baselineProfiles = Except.ok ⟨true, []⟩ ∧
    findByName (if (true : Bool) then ([] : List BProfile) else []) pDel.name = none ∧
    ∃ e, (runModule bC9 pDel ⟨true, false⟩).1 = .exited e ∧
      e.msg = .s CHANGES_NOT_FOUND_MSG ∧ e.changed = false ∧ e.failed = false ∧
      (((runModule bC9 pDel ⟨true, false⟩).2).all fun req => !req.isDeleteCall) = true :=
  ⟨rfl, by decide, rfl, rfl,
    claim_C4_delete_absent bC9 pDel ⟨true, false⟩ ⟨true, []⟩ rfl (by decide)
      rfl rfl⟩

/-- **C10 (amended)** HTTP errors with a parseable body: status 500 exits
failed=true with the parsed body as the message (no error_info attached);
otherwise, an errorCode containing "18001" under check mode exits with the
benign no-changes message; an errorCode containing "500" exits with
skipped=true; all remaining HTTP errors exit failed=true with the
backend-provided message and the error body attached; and a
connection-level URL error exits with unreachable=true rather than
failed=true.  The last conjunct ties the handler to a full module run. -/
theorem claim_C10_http_error_handling :
    (∀ (c : Int) (bd : ErrBody) (check : Bool), c = 500 →
      handleHTTPError c (some bd) check =
        .exited { msg := .json bd, failed := true }) ∧
    (∀ (c : Int) (bd : ErrBody) (code : String) (check : Bool), c ≠ 500 →
      bd.errorCode = some code → containsSubstr code "18001" = true →
      check = true →
      handleHTTPError c (some bd) check =
        .exited { msg := .s CHANGES_NOT_FOUND_MSG }) ∧
    (∀ (c : Int) (bd : ErrBody) (code : String) (check : Bool), c ≠ 500 →
      bd.errorCode = some code →
      (containsSubstr code "18001" = false ∨ check = false) →
      containsSubstr code "500" = true →
      handleHTTPError c (some bd) check =
        .exited { msg := msgOfOpt bd.message, skipped := true }) ∧
    (∀ (c : Int) (bd : ErrBody) (code : String) (check : Bool), c ≠ 500 →
      bd.errorCode = some code →
      (containsSubstr code "18001" = false ∨ check = false) →
      containsSubstr code "500" = false →
      handleHTTPError c (some bd) check =
        .exited {
          msg := msgOfOpt bd.message, error_info := some bd,
          failed := true }) ∧
    (∀ (b : Backend) (p : Params) (fl : Flags) (m : String),
      argspecOk p = true → p.state = "present" →
      b.baselineProfiles = .error (.url m) →
      (runModule b p fl).1 = .exited { msg := .s m, unreachable := true }) ∧
    (∀ (b : Backend) (p : Params) (fl : Flags) (c : Int) (bd : Option ErrBody),
      argspecOk p = true → p.state = "present" →
      b.baselineProfiles = .error (.http c bd) →
      (runModule b p fl).1 = handleHTTPError c bd fl.check_mode) := by
  refine ⟨?_, ?_, ?_, ?_, ?_, ?_⟩
  · intro c bd check h500
    subst h500
    rfl
  · intro c bd code check h500 hcode h18 hcheck
    have hcb : (c == 500) = false := by simp [h500]
    unfold handleHTTPError
    simp [hcb, hcode, h18, hcheck]
  · intro c bd code check h500 hcode hd h5
    have hcb : (c == 500) = false := by simp [h500]
    unfold handleHTTPError
    rcases hd with hd | hd <;> simp [hcb, hcode, hd, h5]
  · intro c bd code check h500 hcode hd h5
    have hcb : (c == 500) = false := by simp [h500]
    unfold handleHTTPError
    rcases hd with hd | hd <;> simp [hcb, hcode, hd, h5]
  · intro b p fl m ha hs hb
    rw [runModule_eq]
    simp [ha, hs, hb, outcomeOfExc, excOf]
  · intro b p fl c bd ha hs hb
    rw [runModule_eq]
    simp [ha, hs, hb, outcomeOfExc, excOf]

/-- **C10 counterexample** An HTTP error whose `errorCode` is "500"
(HTTP status 400, not check mode) exits with skipped=true and no
error_info — not, as the claim states for non-18001 HTTP errors, with
the error code and message attached and failed=true. -/
theorem claim_C10_counterexample :
    (runModule bC10 pPres ⟨false, false⟩).1 =
      .exited { msg := .s "Internal error occurred", skipped := true } ∧
    ¬(runModule bC10 pPres ⟨false, false⟩).1 =
      .exited {
        msg := .s "Internal error occurred",
        error_info := some ⟨some "500", some "Internal error occurred"⟩,
        failed := true } :=
  ⟨by decide, by decide⟩

/-- Witness for C10: the ordinary-HTTP-error conjunct at a concrete error
body, and the handler-to-run conjunct on a backend raising that error. -/
theorem claim_C10_http_error_handling_witness :
    (400 : Int) ≠ 500 ∧
    handleHTTPError 400 (some ⟨some "18001", some "already exists"⟩) false =
      .exited {
        msg := .s "already exists",
        error_info := some ⟨some "18001", some "already exists"⟩,
        failed := true } ∧
    (runModule bC10 pPres ⟨false, false⟩).1 =
      handleHTTPError 400 (some ⟨some "500", some "Internal error occurred"⟩)
        false :=
  ⟨by decide,
    claim_C10_http_error_handling.2.2.2.1 400 ⟨some "18001", some "already exists"⟩
      "18001" false (by decide) rfl (Or.inr rfl) (by decide),
    claim_C10_http_error_handling.2.2.2.2.2 bC10 pPres ⟨false, false⟩ 400
      (some ⟨some "500", some "Internal error occurred"⟩) (by decide) rfl rfl⟩
